import Mathlib

/-!
Verification of the analytics service of the whatsappbot repository.

The Python sources under `src/src/backend/analytics-service/src/` are shallowly
embedded below:

* timestamps and durations are embedded as integer seconds (`ℤ`); Python
  `datetime`/`timedelta` comparisons and differences are exact, so second
  granularity is faithful for every property treated here (the one boundary we
  need, "90 days plus one second", is representable);
* Python floats are embedded as rationals (`ℚ`); `numpy` reductions
  (`mean`, `std`, `percentile`) are given their mathematical definitions;
  `np.std` is kept as its square (a rational) with the real square root
  exposed separately, so that the embedding stays executable;
* a raised Python exception becomes an `Except PyError` result.

File layout: data model and operations first, then the theorems settling the
claims, in claim order.
-/

namespace WABot

/-- Python exception classes that the embedded code can raise. The repository
itself raises only `ValueError`; `AttributeError` and `TypeError` appear where
the source, as written, trips over a shadowed module name or an illegal pandas
conversion. Message texts follow the source (quotes inside Python messages are
dropped). -/
inductive PyError
  | valueError (msg : String)
  | attributeError (msg : String)
  | typeError (msg : String)
deriving DecidableEq, Repr

/-- Decidable equality of `Except` results, so that concrete runs of the
embedded fallible code can be checked by `decide`. -/
instance {ε α : Type} [DecidableEq ε] [DecidableEq α] : DecidableEq (Except ε α)
  | .ok a, .ok b => if h : a = b then .isTrue (by rw [h]) else .isFalse (by simp [h])
  | .error a, .error b => if h : a = b then .isTrue (by rw [h]) else .isFalse (by simp [h])
  | .ok _, .error _ => .isFalse (by simp)
  | .error _, .ok _ => .isFalse (by simp)

/-! ## Time-range validation

`models/reports.py` begins with `from datetime import datetime`, so inside the
module the name `datetime` is the *class* `datetime.datetime`, not the module.
`BaseReport._validate_time_range` (lines 48-64) nevertheless evaluates
`datetime.timedelta(days=90)` after its first two checks; that expression
raises `AttributeError` unconditionally, so the 90-day comparison on line 63
is never reached. -/

/-- `BaseReport._validate_time_range` (models/reports.py lines 48-64),
over start/end/now in seconds.

Source, line by line:
 * `if self.end_time <= self.start_time: raise ValueError(...)`
 * `if self.end_time > datetime.utcnow(): raise ValueError(...)`
 * `max_range = datetime.timedelta(days=90)` — `AttributeError`: `datetime`
   is the class imported by `from datetime import datetime`; the class has no
   attribute `timedelta`.  The subsequent comparison is dead code. -/
def validateTimeRange (start endT now : ℤ) : Except PyError Unit :=
  if endT ≤ start then
    .error (.valueError "End time must be after start time")
  else if now < endT then
    .error (.valueError "End time cannot be in the future")
  else
    .error (.attributeError "type object datetime has no attribute timedelta")

/-- `ReportRequest.validate_time_span` (routes/reports.py lines 75-84): the
pydantic validator on `end_time`, given `start_time` (seconds).  This module
imports `timedelta` directly, so the check works:
 * `if time_diff > timedelta(days=90): raise ValueError(...)`
 * `if time_diff.total_seconds() <= 0: raise ValueError(...)` -/
def validateTimeSpan (start endT : ℤ) : Except PyError Unit :=
  if 90 * 86400 < endT - start then
    .error (.valueError "Time range cannot exceed 90 days")
  else if endT - start ≤ 0 then
    .error (.valueError "End time must be after start time")
  else
    .ok ()

/-- `ReportRequest.validate_time_range` (routes/reports.py lines 68-73): each
of `start_time`, `end_time` must not be in the future. -/
def validateNotFuture (t now : ℤ) : Except PyError Unit :=
  if now < t then .error (.valueError "Time cannot be in the future")
  else .ok ()

/-! ## Time partitions (report assembler) -/

/-- Python `int()` applied to a rational: truncation toward zero. -/
def pyInt (q : ℚ) : ℤ :=
  if 0 ≤ q then ⌊q⌋ else -⌊-q⌋

/-- Partition strategy chosen by `BaseReport._setup_time_partitions`
(models/reports.py lines 90-97) from the range duration in hours:
hourly if ≤ 24h, daily if ≤ 168h, else weekly. -/
def partitionStrategy (durationHours : ℚ) : String :=
  if durationHours ≤ 24 then "hourly"
  else if durationHours ≤ 168 then "daily"
  else "weekly"

/-- Hours per partition, `{'hourly': 1, 'daily': 24, 'weekly': 168}`
(models/reports.py line 102). -/
def partitionSizeHours (s : String) : ℚ :=
  if s = "hourly" then 1 else if s = "daily" then 24 else 168

/-- `partition_count` (models/reports.py lines 101-102):
`int(duration_hours / {...}[partition_size])`. -/
def partitionCount (start endT : ℤ) : ℤ :=
  let dh : ℚ := (endT - start : ℤ) / 3600
  pyInt (dh / partitionSizeHours (partitionStrategy dh))

/-- `BaseReport._calculate_partition_boundaries` (models/reports.py lines
106-128).  The loop body appends `current` and then evaluates
`current += datetime.timedelta(...)`, which raises `AttributeError` (shadowed
`datetime`, as in `validateTimeRange`).  So the loop raises on its first
iteration whenever `start <= end`, and only an empty range returns (with no
boundaries). -/
def calculatePartitionBoundaries (start endT : ℤ) : Except PyError (List ℤ) :=
  if start ≤ endT then
    .error (.attributeError "type object datetime has no attribute timedelta")
  else
    .ok []

/-- The `time_partitions` record assembled by `_setup_time_partitions`. -/
structure TimePartitions where
  strategy : String
  partition_count : ℤ
  partition_boundaries : List ℤ
deriving DecidableEq, Repr

/-- `BaseReport._setup_time_partitions` (models/reports.py lines 86-104): the
dict literal evaluates the strategy, the count, and then the boundaries; the
boundary computation raises, so the whole update raises for every range. -/
def setupTimePartitions (start endT : ℤ) : Except PyError TimePartitions := do
  let dh : ℚ := (endT - start : ℤ) / 3600
  let ps := partitionStrategy dh
  let bs ← calculatePartitionBoundaries start endT
  .ok { strategy := ps, partition_count := partitionCount start endT,
        partition_boundaries := bs }

/-! ## Metric model (`models/metrics.py`)

`BaseMetric.validate` calls `uuid.UUID(self.metric_id)`, matches
`organization_id` against `^[a-zA-Z0-9-]{4,}$` and rejects future timestamps.
The CPython `uuid.UUID` constructor normalises its argument by deleting the
substrings `urn:` and `uuid:`, stripping surrounding braces, deleting hyphens,
and then requiring exactly 32 hexadecimal digits; that normalisation is
embedded below (the `int(h, 16)` corner cases — underscores, surrounding
whitespace, a sign — are not modelled; no claim depends on them). -/

/-- Delete the occurrences of the pattern `p :: ps` from a character list,
scanning left to right without overlap — the behaviour of Python
`str.replace(pat, '')`.  Structural recursion on a fuel argument so the
function evaluates inside the kernel. -/
def delOccAux (p : Char) (ps : List Char) : ℕ → List Char → List Char
  | 0, _ => []
  | _ + 1, [] => []
  | fuel + 1, c :: rest =>
    if (p :: ps).isPrefixOf (c :: rest) then delOccAux p ps fuel (rest.drop ps.length)
    else c :: delOccAux p ps fuel rest

/-- Python `s.replace(pat, '')` for a non-empty pattern. -/
def delOcc (p : Char) (ps : List Char) (l : List Char) : List Char :=
  delOccAux p ps l.length l

/-- Python `s.strip(chars)`: remove leading and trailing characters drawn from
`cs`. -/
def stripChars (cs : List Char) (l : List Char) : List Char :=
  ((l.dropWhile (cs.contains ·)).reverse.dropWhile (cs.contains ·)).reverse

/-- A hexadecimal digit. -/
def isHexChar (c : Char) : Bool :=
  c.isDigit || ('a' ≤ c && c ≤ 'f') || ('A' ≤ c && c ≤ 'F')

/-- Whether `uuid.UUID(s)` succeeds (CPython normalisation; see section
comment).  The braces stripped by `strip` are written by code point (123 and
125). -/
def pythonUUIDOk (s : String) : Bool :=
  let h := delOcc 'u' "rn:".toList s.toList
  let h := delOcc 'u' "uid:".toList h
  let h := stripChars [Char.ofNat 123, Char.ofNat 125] h
  let h := h.filter (fun c => c != '-')
  h.length == 32 && h.all isHexChar

/-- Whether `re.match(r'^[a-zA-Z0-9-]{4,}$', s)` succeeds: at least four
characters, all alphanumeric or hyphen.  (The `$`-before-final-newline quirk
of `re` is not modelled; no claim involves strings with newlines.) -/
def orgIdOk (s : String) : Bool :=
  4 ≤ s.toList.length && s.toList.all (fun c => c.isAlphanum || c == '-')

/-- `BaseMetric.validate` (models/metrics.py lines 39-62): the list of base
validation errors, in source order; `is_valid` is set to whether this list is
empty. -/
def baseValidationErrors (mid org : String) (ts now : ℤ) : List String :=
  (if pythonUUIDOk mid then [] else ["Invalid metric_id format"]) ++
  (if orgIdOk org then [] else ["Invalid organization_id format"]) ++
  (if now < ts then ["Timestamp cannot be in the future"] else [])

/-- Round half to even on a rational — the behaviour of Python `round` on the
exact value (floats realise ties only at exactly representable halves; no
claim depends on a tie). -/
def roundHalfEven (q : ℚ) : ℤ :=
  let f := ⌊q⌋
  let r := q - f
  if r < 1 / 2 then f
  else if 1 / 2 < r then f + 1
  else if f % 2 = 0 then f else f + 1

/-- Python `round(q, 2)`. -/
def round2 (q : ℚ) : ℚ :=
  (roundHalfEven (q * 100) : ℤ) / 100

/-- The value returned by `MessageMetric.calculate_delivery_rate`
(models/metrics.py lines 108-130): `0.0` when `total_messages == 0`,
otherwise `round((delivered / total) * 100, 2)`. -/
def calculateDeliveryRate (total delivered : ℤ) : ℚ :=
  if total = 0 then 0 else round2 ((delivered : ℚ) / (total : ℚ) * 100)

/-- The SLA validation error appended inside `calculate_delivery_rate`
(models/metrics.py lines 126-128): only reached when `total != 0` (the zero
case returns early), and compares the *unrounded* rate against 99.0. -/
def slaErrors (total delivered : ℤ) : List String :=
  if total = 0 then []
  else if (delivered : ℚ) / (total : ℚ) * 100 < 99 then
    ["Delivery rate below SLA requirement of 99%"]
  else []

/-- The count-consistency errors appended by `MessageMetric.__post_init__`
(models/metrics.py lines 101-106), in source order. -/
def countErrors (total delivered failed : ℤ) : List String :=
  (if total < 0 ∨ delivered < 0 ∨ failed < 0 then
     ["Message counts cannot be negative"] else []) ++
  (if total < delivered + failed then
     ["Total messages must be >= delivered + failed messages"] else [])

/-- A constructed `MessageMetric` (the fields the claims touch). -/
structure MessageMetricM where
  metric_id : String
  organization_id : String
  timestamp : ℤ
  total_messages : ℤ
  delivered_messages : ℤ
  failed_messages : ℤ
  delivery_rate : ℚ
  is_valid : Bool
  validation_errors : List String
deriving DecidableEq, Repr

/-- `MessageMetric.__post_init__` (models/metrics.py lines 96-106), with
`now` the value of `datetime.utcnow()` during construction: the base
validation runs first and fixes `is_valid`; then `calculate_delivery_rate`
appends the SLA error and sets `delivery_rate`; then the count checks append
their errors.  `is_valid` is never recomputed. -/
def mkMessageMetric (mid org : String) (ts now total delivered failed : ℤ) :
    MessageMetricM :=
  let base := baseValidationErrors mid org ts now
  { metric_id := mid
    organization_id := org
    timestamp := ts
    total_messages := total
    delivered_messages := delivered
    failed_messages := failed
    delivery_rate := calculateDeliveryRate total delivered
    is_valid := base.isEmpty
    validation_errors := base ++ slaErrors total delivered ++
      countErrors total delivered failed }

/-! ## Statistics calculator (`services/calculator.py`)

`numpy` reductions over an array of floats are embedded as their exact
mathematical counterparts over `List ℚ`.  `np.std` (population standard
deviation, `ddof=0`) is kept as its square `npVar`, a rational, with the real
square root exposed as `npStd`, so the rest of the development stays
executable. -/

/-- `np.mean`. -/
def npMean (l : List ℚ) : ℚ := l.sum / l.length

/-- The square of `np.std` (population variance, `ddof=0`). -/
def npVar (l : List ℚ) : ℚ :=
  ((l.map fun x => (x - npMean l) ^ 2).sum) / l.length

/-- `np.std`: the square root of `npVar`. -/
noncomputable def npStd (l : List ℚ) : ℝ := Real.sqrt ((npVar l : ℚ) : ℝ)

/-- `np.min` on a non-empty array (the empty case raises in numpy and is
guarded before use). -/
def npMinimum : List ℚ → ℚ
  | [] => 0
  | x :: xs => xs.foldl min x

/-- `np.max` on a non-empty array. -/
def npMaximum : List ℚ → ℚ
  | [] => 0
  | x :: xs => xs.foldl max x

/-- `np.percentile(l, p)` with the default linear interpolation: on the
sorted data `s` of length `n`, the rank is `h = (n-1)·p/100` and the result
is `s[⌊h⌋] + (h - ⌊h⌋)·(s[⌈h⌉] - s[⌊h⌋])`.  `none` embeds the numpy errors
for an empty array or a percentile outside `[0, 100]`. -/
def npPercentile (l : List ℚ) (p : ℚ) : Option ℚ :=
  if l.isEmpty then none
  else if p < 0 ∨ 100 < p then none
  else
    let s := List.insertionSort (· ≤ ·) l
    let h : ℚ := ((l.length : ℚ) - 1) * p / 100
    some (s.getD ⌊h⌋.toNat 0 + (h - (⌊h⌋ : ℚ)) * (s.getD ⌈h⌉.toNat 0 - s.getD ⌊h⌋.toNat 0))

/-- The summary dict built by `calculate_statistical_summary`
(services/calculator.py lines 242-266): basic stats plus the requested
percentiles.  `np.std` is carried as its square in `var` (see `npStd`);
the confidence-interval entry of lines 268-279 is modelled separately by
`confidenceInterval`. -/
structure StatisticalSummary where
  mean : ℚ
  median : ℚ
  var : ℚ
  min : ℚ
  max : ℚ
  percentiles : List (ℚ × ℚ)
deriving DecidableEq, Repr

/-- `calculate_statistical_summary` (services/calculator.py lines 242-266):
`none` embeds the numpy failure on an empty array or an out-of-range
requested percentile. -/
def statisticalSummary (data : List ℚ) (ps : List ℚ) : Option StatisticalSummary :=
  if data.isEmpty then none
  else if ps.any (fun p => decide (p < 0) || decide (100 < p)) then none
  else some
    { mean := npMean data
      median := (npPercentile data 50).getD 0
      var := npVar data
      min := npMinimum data
      max := npMaximum data
      percentiles := ps.map fun p => (p, (npPercentile data p).getD 0) }

/-- The confidence-interval entry of `calculate_statistical_summary`
(services/calculator.py lines 268-279): present exactly when the sample size
is at least 30, with bounds `mean ∓ 1.96 · std / sqrt n`. -/
noncomputable def confidenceInterval (data : List ℚ) : Option (ℝ × ℝ) :=
  if 30 ≤ data.length then
    some (((npMean data : ℚ) : ℝ) - 196 / 100 * npStd data / Real.sqrt (data.length : ℝ),
          ((npMean data : ℚ) : ℝ) + 196 / 100 * npStd data / Real.sqrt (data.length : ℝ))
  else none

/-- `float(np.mean(delivery_rates >= 99.0))` (services/calculator.py line
90): the fraction of observations meeting or exceeding the 99.0 threshold. -/
def slaComplianceFrac (rates : List ℚ) : ℚ :=
  ((rates.filter fun r => decide (99 ≤ r)).length : ℚ) / (rates.length : ℚ)

/-- The `current_statistics` block of `calculate_delivery_statistics`
(services/calculator.py lines 85-96).  `std_deviation_sq` carries the square
of the reported standard deviation (see `npStd`). -/
structure CurrentStatistics where
  total_messages : ℤ
  average_delivery_rate : ℚ
  std_deviation_sq : ℚ
  sla_compliance : ℚ
deriving DecidableEq, Repr

/-- The result of `calculate_delivery_statistics`.  The
`historical_trends` and `threshold_analysis` entries are driven by the
calculator's injected historical DataFrame and threshold configuration; they
are computed only after the validity guard and are not needed by any claim,
so they are not modelled. -/
structure DeliveryStats where
  current_statistics : CurrentStatistics
  statistical_analysis : Option StatisticalSummary
deriving DecidableEq, Repr

/-- `MetricsCalculator.calculate_delivery_statistics`
(services/calculator.py lines 52-96): filters the metrics on `is_valid`,
raises `ValueError("No valid metrics provided for analysis")` when none
remain — the spec taxonomy's `InsufficientDataError` — and otherwise builds
the statistics from the valid metrics' delivery rates. -/
def calculateDeliveryStatistics (metrics : List MessageMetricM) :
    Except PyError DeliveryStats :=
  let valid := metrics.filter (·.is_valid)
  if valid.isEmpty then
    .error (.valueError "No valid metrics provided for analysis")
  else
    let rates := valid.map (·.delivery_rate)
    .ok { current_statistics :=
            { total_messages := (valid.map (·.total_messages)).sum
              average_delivery_rate := npMean rates
              std_deviation_sq := npVar rates
              sla_compliance := slaComplianceFrac rates }
          statistical_analysis := statisticalSummary rates [25, 50, 75, 90, 95, 99] }

/-! ## Aggregator SLA block (`services/aggregator.py` lines 101-105)

`grouped_data` is the pandas group-by of the metric rows over calendar time
bins; its content is embedded as the list of per-bucket delivery-rate lists.
`grouped_data['delivery_rate'].mean()` is then the *per-bucket* mean Series,
embedded as `perBucketMeans`.  Line 102 compares that Series with 99.0
elementwise (`aggCompliantSeries`); line 103 applies `float()` to it, which
in pandas 2.0 raises `TypeError` unless the Series has exactly one element
(`aggAverageRate`). -/

/-- The per-bucket mean Series `grouped_data['delivery_rate'].mean()`. -/
def perBucketMeans (groups : List (List ℚ)) : List ℚ := groups.map npMean

/-- Line 102, `'compliant': (grouped_data['delivery_rate'].mean() >= 99.0)`:
an elementwise boolean Series, not a scalar boolean. -/
def aggCompliantSeries (bucketMeans : List ℚ) : List Bool :=
  bucketMeans.map fun m => decide (99 ≤ m)

/-- Line 103, `'average_rate': float(grouped_data['delivery_rate'].mean())`:
`float()` of a Series raises `TypeError` unless it has exactly one element. -/
def aggAverageRate (bucketMeans : List ℚ) : Except PyError ℚ :=
  match bucketMeans with
  | [m] => .ok m
  | _ => .error (.typeError "cannot convert the series to float")

/-! ## Report caching (`routes/reports.py` lines 86-106)

`cache_report` stores `str(report_data)` in redis under the report cache key
and `get_cached_report` recovers the dictionary with `eval(cached_data)`; the
round-trip claim is about the statistics fields of the report document, i.e.
the `current_statistics` block.  The embedding renders that block as the
Python `str()` of the dict — brace, quoted keys, comma-separated values —
with the numeric values printed in an injective exact form (an integer as its
decimal digits, a rational as `numerator/denominator`; this stands in for
CPython's exactly round-tripping float `repr`).  The parser plays the role of
`eval` on that fragment. -/

/-- The decimal digit character of `d < 10`. -/
def digitToChar (d : ℕ) : Char := Char.ofNat (48 + d)

/-- The value of a decimal digit character. -/
def charToDigit (c : Char) : ℕ := c.toNat - 48

/-- Decimal rendering of a natural number, most significant digit first. -/
def renderNat (n : ℕ) : List Char :=
  if n = 0 then ['0'] else (Nat.digits 10 n).reverse.map digitToChar

/-- Decimal rendering of an integer. -/
def renderInt (i : ℤ) : List Char :=
  if i < 0 then '-' :: renderNat i.natAbs else renderNat i.natAbs

/-- Exact rendering of a rational as `numerator/denominator`. -/
def renderRat (q : ℚ) : List Char := renderInt q.num ++ '/' :: renderNat q.den

/-- Parse a maximal non-empty run of decimal digits. -/
def parseDigits (l : List Char) : Option (ℕ × List Char) :=
  let ds := l.takeWhile (·.isDigit)
  if ds.isEmpty then none
  else some (ds.foldl (fun acc c => 10 * acc + charToDigit c) 0, l.dropWhile (·.isDigit))

/-- Parse an optionally negated digit run. -/
def parseIntChars (l : List Char) : Option (ℤ × List Char) :=
  if l.head? = some '-' then (parseDigits l.tail).map fun x => (-(x.1 : ℤ), x.2)
  else (parseDigits l).map fun x => ((x.1 : ℤ), x.2)

/-- Parse a rational rendered by `renderRat`. -/
def parseRat (l : List Char) : Option (ℚ × List Char) :=
  match parseIntChars l with
  | none => none
  | some (n, r1) =>
    match r1 with
    | '/' :: r2 =>
      match parseDigits r2 with
      | none => none
      | some (d, r3) => some ((n : ℚ) / (d : ℚ), r3)
    | _ => none

/-- Parse an expected literal prefix. -/
def parseLit (lit l : List Char) : Option (List Char) :=
  if lit.isPrefixOf l then some (l.drop lit.length) else none

/-- `"{'total_messages': "` — the dict opener (brace and quotes written as
code points). -/
def csOpen : List Char := "\x7b\x27total_messages\x27: ".toList

/-- `", 'average_delivery_rate': "`. -/
def csK2 : List Char := ", \x27average_delivery_rate\x27: ".toList

/-- `", 'std_deviation': "` (the value slot carries `std_deviation_sq`, the
embedding's exact stand-in for the reported float). -/
def csK3 : List Char := ", \x27std_deviation\x27: ".toList

/-- `", 'sla_compliance': "`. -/
def csK4 : List Char := ", \x27sla_compliance\x27: ".toList

/-- The closing brace. -/
def csClose : List Char := "\x7d".toList

/-- `str()` of the `current_statistics` dict, as stored by `cache_report`. -/
def reprCurrentStats (s : CurrentStatistics) : List Char :=
  csOpen ++ renderInt s.total_messages ++
  csK2 ++ renderRat s.average_delivery_rate ++
  csK3 ++ renderRat s.std_deviation_sq ++
  csK4 ++ renderRat s.sla_compliance ++ csClose

/-- The `eval` of a serialized `current_statistics` dict: parse the opener,
the four keyed values and the closing brace. -/
def parseCurrentStats (l : List Char) : Option (CurrentStatistics × List Char) :=
  (parseLit csOpen l).bind fun r0 =>
  (parseIntChars r0).bind fun p1 =>
  (parseLit csK2 p1.2).bind fun r1 =>
  (parseRat r1).bind fun p2 =>
  (parseLit csK3 p2.2).bind fun r2 =>
  (parseRat r2).bind fun p3 =>
  (parseLit csK4 p3.2).bind fun r3 =>
  (parseRat r3).bind fun p4 =>
  (parseLit csClose p4.2).map fun r4 =>
  (⟨p1.1, p2.1, p3.1, p4.1⟩, r4)

/-- Serialization to the cached string, `str(report_data)` restricted to the
statistics block. -/
def serializeCurrentStats (s : CurrentStatistics) : String :=
  String.mk (reprCurrentStats s)

/-- `eval(cached_data)` on the statistics block: the parse must consume the
whole string. -/
def parseCurrentStatsDoc (str : String) : Option CurrentStatistics :=
  match parseCurrentStats str.toList with
  | some (c, []) => some c
  | _ => none

/-- `redis_client.setex(...)` on an association-list store (most recent entry
first). -/
def redisSet (store : List (String × String)) (k v : String) :
    List (String × String) :=
  (k, v) :: store

/-- `redis_client.get(...)`. -/
def redisGet (store : List (String × String)) (k : String) : Option String :=
  (store.find? fun e => e.1 == k).map (·.2)

/-- `cache_report` (routes/reports.py lines 100-106): store the serialized
report under its cache key. -/
def cacheReport (store : List (String × String)) (key : String)
    (s : CurrentStatistics) : List (String × String) :=
  redisSet store key (serializeCurrentStats s)

/-- `get_cached_report` (routes/reports.py lines 90-98): read the cached
string and `eval` it back. -/
def getCachedReport (store : List (String × String)) (key : String) :
    Option CurrentStatistics :=
  (redisGet store key).bind parseCurrentStatsDoc

/-! ## Claims C1 and C2 -/

/-- C1.  The claim says: end > start, end ≤ now and range ≤ 90 days are checked
before any computation, violations fail with the time-range error, a range of
exactly 90 days passes and 90 days + 1 second fails.  On the route model
(`ReportRequest`) the boundary behaviour is exactly as claimed (first three
conjuncts, with 7776000 = 90·86400 seconds).  But on the report model
(`BaseReport._validate_time_range`) every construction that survives the first
two checks raises `AttributeError` — `datetime.timedelta` is evaluated on the
*class* `datetime` imported by `from datetime import datetime` — so a range of
exactly 90 days does not pass validation there (last conjunct): the code is
wrong where the claim (and the method's own docstring) require the 90-day
rule to be enforced. -/
theorem timeRange_90day_boundary_and_crash :
    validateTimeSpan 0 7776000 = .ok () ∧
    validateTimeSpan 0 7776001 =
      .error (.valueError "Time range cannot exceed 90 days") ∧
    validateNotFuture 7776000 7776001 = .ok () ∧
    validateTimeRange 0 7776000 7776001 =
      .error (.attributeError
        "type object datetime has no attribute timedelta") := by
  decide

/-- C2.  For a 24-hour range, `_setup_time_partitions` would pick the hourly
strategy and a partition count of exactly 24 — but assembling the partitions
raises `AttributeError` before any boundary after the range start is produced,
because `_calculate_partition_boundaries` steps with `datetime.timedelta(...)`
under the shadowed `datetime` import.  So the deterministic
1-hour-step-from-range-start boundary computation the claim describes never
completes on the code as written. -/
theorem partition_boundaries_crash_on_24h_range :
    partitionStrategy ((86400 - 0 : ℤ) / 3600) = "hourly" ∧
    partitionCount 0 86400 = 24 ∧
    setupTimePartitions 0 86400 =
      .error (.attributeError
        "type object datetime has no attribute timedelta") := by
  refine ⟨by norm_num [partitionStrategy], ?_, by decide⟩
  norm_num [partitionCount, partitionStrategy, partitionSizeHours, pyInt]

/-! ## Claims C3, C4, C5, C6 -/

/-- C3.  Whenever the metric collection is empty or contains no valid metric,
`calculate_delivery_statistics` fails — with the `ValueError` that realises
the spec taxonomy's `InsufficientDataError` — and produces no statistics
result. -/
theorem no_valid_metrics_insufficient_data (metrics : List MessageMetricM)
    (h : metrics.filter (·.is_valid) = []) :
    calculateDeliveryStatistics metrics =
      .error (.valueError "No valid metrics provided for analysis") := by
  simp [calculateDeliveryStatistics, h]

/-- Witness for `no_valid_metrics_insufficient_data`: a one-element
collection whose metric fails base validation (bad id, bad organization,
future timestamp). -/
theorem no_valid_metrics_insufficient_data_witness :
    ([mkMessageMetric "notauuid" "ab" 5 0 10 10 0].filter (·.is_valid) = []) ∧
    calculateDeliveryStatistics [mkMessageMetric "notauuid" "ab" 5 0 10 10 0] =
      .error (.valueError "No valid metrics provided for analysis") := by
  have hf : [mkMessageMetric "notauuid" "ab" 5 0 10 10 0].filter (·.is_valid)
      = [] := by decide
  exact ⟨hf, no_valid_metrics_insufficient_data _ hf⟩

/-- A percentile of a one-element sample is that element. -/
theorem percentile_singleton (x p : ℚ) (h0 : 0 ≤ p) (h1 : p ≤ 100) :
    npPercentile [x] p = some x := by
  have hcond : ¬(p < 0 ∨ 100 < p) := by push_neg; exact ⟨h0, h1⟩
  simp only [npPercentile, List.isEmpty_cons, if_neg hcond]
  norm_num [List.insertionSort, List.orderedInsert]

/-- The variance of a one-element sample is zero. -/
theorem var_singleton (x : ℚ) : npVar [x] = 0 := by
  simp [npVar, npMean]

/-- The standard deviation of a one-element sample is zero. -/
theorem std_singleton (x : ℚ) : npStd [x] = 0 := by
  rw [npStd, show ((npVar [x] : ℚ) : ℝ) = 0 by rw [var_singleton]; norm_num]
  exact Real.sqrt_zero

/-- C4.  For a one-element sample, the statistical summary reports a zero
standard deviation (the reported `std` is `npStd`, whose square the summary
carries) and every requested percentile equals the single value. -/
theorem singleton_sample_degenerate_summary (x : ℚ) (ps : List ℚ)
    (hps : ∀ p ∈ ps, 0 ≤ p ∧ p ≤ 100) :
    npStd [x] = 0 ∧
    (statisticalSummary [x] ps).map (·.var) = some 0 ∧
    (statisticalSummary [x] ps).map (·.percentiles) =
      some (ps.map fun p => (p, x)) := by
  have hany : (ps.any fun p => decide (p < 0) || decide (100 < p)) = false := by
    rw [List.any_eq_false]
    intro p hp
    simp only [Bool.or_eq_true, decide_eq_true_eq, not_or, not_lt]
    exact ⟨(hps p hp).1, (hps p hp).2⟩
  have hsum : statisticalSummary [x] ps = some
      { mean := npMean [x], median := (npPercentile [x] 50).getD 0,
        var := npVar [x], min := npMinimum [x], max := npMaximum [x],
        percentiles := ps.map fun p => (p, (npPercentile [x] p).getD 0) } := by
    simp [statisticalSummary, hany]
  refine ⟨std_singleton x, ?_, ?_⟩
  · rw [hsum]
    simp only [Option.map_some']
    rw [var_singleton]
  · rw [hsum]
    simp only [Option.map_some']
    congr 1
    apply List.map_congr_left
    intro p hp
    rw [percentile_singleton x p (hps p hp).1 (hps p hp).2]
    rfl

/-- Witness for `singleton_sample_degenerate_summary` at the sample `[7]`
with requested percentiles 25 and 95. -/
theorem singleton_sample_degenerate_summary_witness :
    (∀ p ∈ [(25 : ℚ), 95], 0 ≤ p ∧ p ≤ 100) ∧
    (npStd [(7 : ℚ)] = 0 ∧
     (statisticalSummary [(7 : ℚ)] [25, 95]).map (·.var) = some 0 ∧
     (statisticalSummary [(7 : ℚ)] [25, 95]).map (·.percentiles) =
       some [(25, 7), (95, 7)]) := by
  have hps : ∀ p ∈ [(25 : ℚ), 95], 0 ≤ p ∧ p ≤ 100 := by decide
  have h := singleton_sample_degenerate_summary 7 [25, 95] hps
  exact ⟨hps, by simpa using h⟩

/-- C5.  The summary carries a 95% confidence interval exactly when the
sample has at least 30 elements, and then its bounds are
`mean ∓ 1.96 · std / sqrt n`; below 30 no interval is emitted. -/
theorem confidence_interval_iff_sample_30 (data : List ℚ) :
    ((confidenceInterval data).isSome ↔ 30 ≤ data.length) ∧
    (30 ≤ data.length → confidenceInterval data =
      some (((npMean data : ℚ) : ℝ) - 196 / 100 * npStd data / Real.sqrt (data.length : ℝ),
            ((npMean data : ℚ) : ℝ) + 196 / 100 * npStd data / Real.sqrt (data.length : ℝ))) ∧
    (data.length < 30 → confidenceInterval data = none) := by
  unfold confidenceInterval
  by_cases h : 30 ≤ data.length
  · simp [h]
  · simp [h]

/-- The mean of thirty fives is five. -/
theorem mean_replicate_five : npMean (List.replicate 30 (5 : ℚ)) = 5 := by
  simp [npMean, List.sum_replicate]
  norm_num

/-- The variance of thirty fives is zero. -/
theorem var_replicate_five : npVar (List.replicate 30 (5 : ℚ)) = 0 := by
  rw [npVar, mean_replicate_five, List.map_replicate, List.sum_replicate]
  norm_num

/-- The standard deviation of thirty fives is zero. -/
theorem std_replicate_five : npStd (List.replicate 30 (5 : ℚ)) = 0 := by
  rw [npStd, show ((npVar (List.replicate 30 (5 : ℚ)) : ℚ) : ℝ) = 0 by
    rw [var_replicate_five]; norm_num]
  exact Real.sqrt_zero

/-- Witness for `confidence_interval_iff_sample_30`: a 30-element sample of
fives gets the interval `[5, 5]`; a 1-element sample gets none. -/
theorem confidence_interval_iff_sample_30_witness :
    (30 ≤ (List.replicate 30 (5 : ℚ)).length ∧
      confidenceInterval (List.replicate 30 (5 : ℚ)) = some (5, 5)) ∧
    ((1 : ℕ) < 30 ∧ confidenceInterval [(7 : ℚ)] = none) := by
  have hlen : 30 ≤ (List.replicate 30 (5 : ℚ)).length := by simp
  have h := (confidence_interval_iff_sample_30 (List.replicate 30 5)).2.1 hlen
  have h1 := (confidence_interval_iff_sample_30 [(7 : ℚ)]).2.2 (by simp)
  refine ⟨⟨hlen, ?_⟩, ⟨by norm_num, h1⟩⟩
  rw [h, mean_replicate_five, std_replicate_five]
  norm_num

/-- The compliance fraction is 1 when every observation passes. -/
theorem slaComplianceFrac_all_pass (rates : List ℚ) (hne : rates ≠ [])
    (h : ∀ r ∈ rates, 99 ≤ r) : slaComplianceFrac rates = 1 := by
  have hf : rates.filter (fun r => decide (99 ≤ r)) = rates := by
    rw [List.filter_eq_self]
    intro a ha
    simpa using h a ha
  have hlen : (rates.length : ℚ) ≠ 0 := by
    have := List.length_pos.mpr hne
    positivity
  rw [slaComplianceFrac, hf]
  field_simp

/-- The compliance fraction is 0 when every observation fails. -/
theorem slaComplianceFrac_all_fail (rates : List ℚ)
    (h : ∀ r ∈ rates, r < 99) : slaComplianceFrac rates = 0 := by
  have hf : rates.filter (fun r => decide (99 ≤ r)) = [] := by
    rw [List.filter_eq_nil_iff]
    intro a ha
    simpa using not_le.mpr (h a ha)
  rw [slaComplianceFrac, hf]
  simp

/-- C6.  The calculator's compliance *ratio* behaves as claimed (1.0 when all
observations pass, 0.0 when all fail), but the aggregator's `'compliant'`
entry is the elementwise Series `[true, false]` rather than a boolean, and
`float()` on the two-bucket mean Series raises `TypeError`, so for metrics
spread over two buckets no scalar boolean or average rate is reported. -/
theorem sla_reporting_two_buckets_crash :
    slaComplianceFrac [100, 100] = 1 ∧
    slaComplianceFrac [0, 0] = 0 ∧
    aggCompliantSeries (perBucketMeans [[100], [0]]) = [true, false] ∧
    aggAverageRate (perBucketMeans [[100], [0]]) =
      .error (.typeError "cannot convert the series to float") := by
  refine ⟨?_, ?_, ?_, rfl⟩
  · exact slaComplianceFrac_all_pass [100, 100] (by simp) (by norm_num)
  · exact slaComplianceFrac_all_fail [0, 0] (by norm_num)
  · norm_num [aggCompliantSeries, perBucketMeans, npMean]

/-! ## Claims C7, C8, C10 -/

/-- C7, counterexample.  The claim states that for non-zero totals the
delivery rate equals `delivered / total * 100` exactly; the code returns
`round(rate, 2)`, so for 1 delivered out of 3 the stored rate is 33.33, not
100/3. -/
theorem deliveryRate_not_exact_quotient :
    calculateDeliveryRate 3 1 = 3333 / 100 ∧
    calculateDeliveryRate 3 1 ≠ (1 : ℚ) / 3 * 100 := by
  have h : calculateDeliveryRate 3 1 = 3333 / 100 := by
    norm_num [calculateDeliveryRate, round2, roundHalfEven]
  exact ⟨h, by rw [h]; norm_num⟩

/-- C7, amended.  With total = 0 the delivery rate is 0.0 and the quotient is
never formed; with total ≠ 0 it is `delivered / total * 100` rounded to two
decimal places. -/
theorem deliveryRate_zero_guard_and_rounding (total delivered : ℤ) :
    (total = 0 → calculateDeliveryRate total delivered = 0) ∧
    (total ≠ 0 →
      calculateDeliveryRate total delivered =
        round2 ((delivered : ℚ) / (total : ℚ) * 100)) := by
  constructor <;> intro h <;> simp [calculateDeliveryRate, h]

/-- Witness for `deliveryRate_zero_guard_and_rounding` at totals 0 and 3. -/
theorem deliveryRate_zero_guard_and_rounding_witness :
    ((0 : ℤ) = 0 ∧ calculateDeliveryRate 0 5 = 0) ∧
    ((3 : ℤ) ≠ 0 ∧
      calculateDeliveryRate 3 1 = round2 (((1 : ℤ) : ℚ) / ((3 : ℤ) : ℚ) * 100)) :=
  ⟨⟨rfl, (deliveryRate_zero_guard_and_rounding 0 5).1 rfl⟩,
   ⟨by decide, (deliveryRate_zero_guard_and_rounding 3 1).2 (by decide)⟩⟩

/-- C8, counterexample.  A `MessageMetric` whose base fields validate but
whose counts violate `total >= delivered + failed` is still accepted by the
pipeline gate `is_valid` (the gate `calculate_delivery_statistics` filters
on): the count invariant does not hold for every accepted metric. -/
theorem accepted_metric_violates_count_invariant :
    (mkMessageMetric "12345678-1234-5678-1234-567812345678" "org-0001"
        0 100 5 10 0).is_valid = true ∧
    (mkMessageMetric "12345678-1234-5678-1234-567812345678" "org-0001"
        0 100 5 10 0).total_messages <
      (mkMessageMetric "12345678-1234-5678-1234-567812345678" "org-0001"
          0 100 5 10 0).delivered_messages +
      (mkMessageMetric "12345678-1234-5678-1234-567812345678" "org-0001"
          0 100 5 10 0).failed_messages := by
  constructor
  · decide
  · decide

/-- C8, amended.  For every metric whose `validation_errors` list is empty,
the counts are non-negative, the total dominates delivered + failed, and the
stored `delivery_rate` is exactly the value recomputed from the raw counts.
(The `is_valid` flag alone does not guarantee this; see the counterexample.) -/
theorem error_free_metric_count_invariant (mid org : String)
    (ts now total delivered failed : ℤ)
    (h : (mkMessageMetric mid org ts now total delivered failed).validation_errors
          = []) :
    0 ≤ total ∧ 0 ≤ delivered ∧ 0 ≤ failed ∧ delivered + failed ≤ total ∧
    (mkMessageMetric mid org ts now total delivered failed).delivery_rate =
      calculateDeliveryRate total delivered := by
  simp only [mkMessageMetric, List.append_eq_nil] at h
  have hc := h.2
  simp only [countErrors, List.append_eq_nil, ite_eq_right_iff] at hc
  have h1 : ¬(total < 0 ∨ delivered < 0 ∨ failed < 0) := fun hx =>
    List.cons_ne_nil _ _ (hc.1 hx)
  have h2 : ¬(total < delivered + failed) := fun hx =>
    List.cons_ne_nil _ _ (hc.2 hx)
  push_neg at h1
  exact ⟨by omega, by omega, by omega, by omega, rfl⟩

/-- Witness for `error_free_metric_count_invariant`: a fully clean metric
(100 of 100 delivered, rate 100 ≥ 99, consistent counts). -/
theorem error_free_metric_count_invariant_witness :
    (mkMessageMetric "12345678-1234-5678-1234-567812345678" "org-0001"
        0 100 100 100 0).validation_errors = [] ∧
    ((0 : ℤ) ≤ 100 ∧ (0 : ℤ) ≤ 100 ∧ (0 : ℤ) ≤ 0 ∧ (100 : ℤ) + 0 ≤ 100 ∧
     (mkMessageMetric "12345678-1234-5678-1234-567812345678" "org-0001"
        0 100 100 100 0).delivery_rate = calculateDeliveryRate 100 100) := by
  have herr : (mkMessageMetric "12345678-1234-5678-1234-567812345678" "org-0001"
      0 100 100 100 0).validation_errors = [] := by
    simp only [mkMessageMetric]
    have hb : baseValidationErrors "12345678-1234-5678-1234-567812345678"
        "org-0001" 0 100 = [] := by decide
    have hs : slaErrors 100 100 = [] := by
      simp only [slaErrors]
      norm_num
    have hk : countErrors 100 100 0 = [] := by decide
    simp [hb, hs, hk]
  exact ⟨herr,
    error_free_metric_count_invariant "12345678-1234-5678-1234-567812345678"
      "org-0001" 0 100 100 100 0 herr⟩

/-- C10.  `is_valid` depends only on the base fields (metric id,
organization id, timestamp versus now) and not on the message counts; and a
concrete metric with inconsistent counts has `is_valid = true` together with
a non-empty `validation_errors` list. -/
theorem is_valid_ignores_count_and_sla_errors :
    (∀ (mid org : String) (ts now t d f t' d' f' : ℤ),
        (mkMessageMetric mid org ts now t d f).is_valid =
        (mkMessageMetric mid org ts now t' d' f').is_valid) ∧
    (mkMessageMetric "12345678-1234-5678-1234-567812345678" "org-0001"
        0 100 5 10 0).is_valid = true ∧
    (mkMessageMetric "12345678-1234-5678-1234-567812345678" "org-0001"
        0 100 5 10 0).validation_errors ≠ [] := by
  refine ⟨fun mid org ts now t d f t' d' f' => rfl, by decide, ?_⟩
  intro hnil
  simp only [mkMessageMetric, List.append_eq_nil] at hnil
  have hc : countErrors 5 10 0 =
      ["Total messages must be >= delivered + failed messages"] := by decide
  rw [hc] at hnil
  exact List.cons_ne_nil _ _ hnil.2

/-! ## Claim C9: serialization round trip -/

/-- Digit characters are digits. -/
theorem digitToChar_isDigit {d : ℕ} (h : d < 10) : (digitToChar d).isDigit = true := by
  interval_cases d <;> decide

/-- Reading a digit character back gives its value. -/
theorem charToDigit_digitToChar {d : ℕ} (h : d < 10) :
    charToDigit (digitToChar d) = d := by
  interval_cases d <;> decide

/-- A rendered natural number is never the empty string. -/
theorem renderNat_ne_nil (n : ℕ) : renderNat n ≠ [] := by
  unfold renderNat
  split
  · simp
  · next h =>
    simp [Nat.digits_ne_nil_iff_ne_zero, h]

/-- Every character of a rendered natural number is a digit. -/
theorem renderNat_all_digits (n : ℕ) : ∀ c ∈ renderNat n, c.isDigit = true := by
  unfold renderNat
  split
  · intro c hc
    simp at hc
    subst hc
    decide
  · next h =>
    intro c hc
    simp only [List.mem_map, List.mem_reverse] at hc
    obtain ⟨d, hd, rfl⟩ := hc
    exact digitToChar_isDigit (Nat.digits_lt_base (by norm_num) hd)

/-- Folding the digit characters of `ds.reverse` accumulates
`Nat.ofDigits 10 ds` on top of the incoming accumulator. -/
theorem foldl_digitToChar (ds : List ℕ) (a : ℕ) (h : ∀ d ∈ ds, d < 10) :
    (ds.reverse.map digitToChar).foldl (fun acc c => 10 * acc + charToDigit c) a
      = a * 10 ^ ds.length + Nat.ofDigits 10 ds := by
  induction ds generalizing a with
  | nil => simp
  | cons d tl ih =>
    simp only [List.reverse_cons, List.map_append, List.map_cons, List.map_nil,
      List.foldl_append, List.foldl_cons, List.foldl_nil]
    rw [ih a (fun x hx => h x (List.mem_cons_of_mem _ hx)),
      charToDigit_digitToChar (h d (List.mem_cons_self _ _)), Nat.ofDigits_cons]
    simp only [List.length_cons, pow_succ]
    ring

/-- Reading the rendering of `n` back yields `n`. -/
theorem readback_renderNat (n : ℕ) :
    (renderNat n).foldl (fun acc c => 10 * acc + charToDigit c) 0 = n := by
  unfold renderNat
  split
  · next h => subst h; decide
  · next h =>
    rw [foldl_digitToChar _ 0 (fun d hd => Nat.digits_lt_base (by norm_num) hd)]
    simp [Nat.ofDigits_digits]

/-- `takeWhile`/`dropWhile` split an append at the boundary when the first
part satisfies the predicate throughout and the second starts by failing it. -/
theorem takeWhile_append_all (P : Char → Bool) (l r : List Char)
    (hl : ∀ c ∈ l, P c = true) (hr : ∀ c, r.head? = some c → P c = false) :
    (l ++ r).takeWhile P = l ∧ (l ++ r).dropWhile P = r := by
  induction l with
  | nil =>
    simp only [List.nil_append]
    cases r with
    | nil => simp
    | cons c r' =>
      have hc : P c = false := hr c rfl
      simp [List.takeWhile_cons, List.dropWhile_cons, hc]
  | cons c l' ih =>
    have hc : P c = true := hl c (List.mem_cons_self _ _)
    have ih' := ih (fun x hx => hl x (List.mem_cons_of_mem _ hx))
    simp [List.takeWhile_cons, List.dropWhile_cons, hc, ih'.1, ih'.2]

/-- `parseDigits` inverts `renderNat` in front of any non-digit suffix. -/
theorem parseDigits_render (n : ℕ) (rest : List Char)
    (hr : ∀ c, rest.head? = some c → c.isDigit = false) :
    parseDigits (renderNat n ++ rest) = some (n, rest) := by
  have htw := takeWhile_append_all (·.isDigit) (renderNat n) rest
    (renderNat_all_digits n) hr
  simp only [parseDigits, htw.1, htw.2]
  rw [if_neg (by simp [List.isEmpty_iff, renderNat_ne_nil])]
  rw [readback_renderNat]

/-- `parseIntChars` inverts `renderInt` in front of any non-digit suffix. -/
theorem parseIntChars_render (i : ℤ) (rest : List Char)
    (hr : ∀ c, rest.head? = some c → c.isDigit = false) :
    parseIntChars (renderInt i ++ rest) = some (i, rest) := by
  by_cases h : i < 0
  · simp only [renderInt, if_pos h, List.cons_append, parseIntChars,
      List.head?_cons, if_pos rfl, List.tail_cons,
      parseDigits_render i.natAbs rest hr, Option.map_some']
    rw [Int.ofNat_natAbs_of_nonpos (le_of_lt h), neg_neg]
    simp
  · obtain ⟨c, tl, heq⟩ : ∃ c tl, renderNat i.natAbs = c :: tl := by
      cases hn : renderNat i.natAbs with
      | nil => exact absurd hn (renderNat_ne_nil _)
      | cons a tl => exact ⟨a, tl, rfl⟩
    have hdig : c.isDigit = true :=
      renderNat_all_digits _ c (heq ▸ List.mem_cons_self c tl)
    have hne : ¬((renderInt i ++ rest).head? = some '-') := by
      simp only [renderInt, if_neg h, heq, List.cons_append, List.head?_cons]
      intro hcc
      have : c = '-' := by injection hcc
      rw [this] at hdig
      exact absurd hdig (by decide)
    rw [parseIntChars, if_neg hne]
    simp only [renderInt, if_neg h, parseDigits_render i.natAbs rest hr, Option.map_some']
    rw [Int.natAbs_of_nonneg (not_lt.mp h)]

/-- `parseRat` inverts `renderRat` in front of any non-digit suffix. -/
theorem parseRat_render (q : ℚ) (rest : List Char)
    (hr : ∀ c, rest.head? = some c → c.isDigit = false) :
    parseRat (renderRat q ++ rest) = some (q, rest) := by
  have h1 : parseIntChars (renderInt q.num ++ ('/' :: (renderNat q.den ++ rest)))
      = some (q.num, '/' :: (renderNat q.den ++ rest)) := by
    apply parseIntChars_render
    intro c hc
    have hcv : c = '/' := by
      injection hc with hv
      exact hv.symm
    rw [hcv]
    decide
  have h2 : parseDigits (renderNat q.den ++ rest) = some (q.den, rest) :=
    parseDigits_render q.den rest hr
  simp only [renderRat, List.append_assoc, List.cons_append, List.nil_append] at *
  rw [parseRat, h1]
  simp only [h2]
  rw [Rat.num_div_den]

/-- `parseLit` consumes an exact literal prefix. -/
theorem parseLit_append (lit rest : List Char) :
    parseLit lit (lit ++ rest) = some rest := by
  rw [parseLit, if_pos (List.isPrefixOf_iff_prefix.mpr (List.prefix_append lit rest))]
  simp

/-- If a block starts with a known non-digit character, so does the block
followed by anything. -/
theorem head_notdigit_append (L X : List Char) (c0 : Char)
    (h0 : L.head? = some c0) (hd : c0.isDigit = false) :
    ∀ c, (L ++ X).head? = some c → c.isDigit = false := by
  cases L with
  | nil => simp at h0
  | cons a tl =>
    intro c hc
    simp only [List.cons_append, List.head?_cons, Option.some_inj] at h0 hc
    rw [← hc, h0]
    exact hd

/-- Parsing back the serialized statistics block recovers it exactly, in
front of any suffix. -/
theorem parseCurrentStats_repr (s : CurrentStatistics) (rest : List Char) :
    parseCurrentStats (reprCurrentStats s ++ rest) = some (s, rest) := by
  have hK2 := head_notdigit_append csK2
    (renderRat s.average_delivery_rate ++ (csK3 ++ (renderRat s.std_deviation_sq ++
      (csK4 ++ (renderRat s.sla_compliance ++ (csClose ++ rest)))))) ',' (by decide) (by decide)
  have hK3 := head_notdigit_append csK3
    (renderRat s.std_deviation_sq ++ (csK4 ++ (renderRat s.sla_compliance ++ (csClose ++ rest))))
    ',' (by decide) (by decide)
  have hK4 := head_notdigit_append csK4
    (renderRat s.sla_compliance ++ (csClose ++ rest)) ',' (by decide) (by decide)
  have hClose := head_notdigit_append csClose rest (Char.ofNat 125) (by decide) (by decide)
  simp only [reprCurrentStats, List.append_assoc]
  rw [parseCurrentStats, parseLit_append, Option.some_bind,
    parseIntChars_render s.total_messages _ hK2, Option.some_bind,
    parseLit_append, Option.some_bind,
    parseRat_render s.average_delivery_rate _ hK3, Option.some_bind,
    parseLit_append, Option.some_bind,
    parseRat_render s.std_deviation_sq _ hK4, Option.some_bind,
    parseLit_append, Option.some_bind,
    parseRat_render s.sla_compliance _ hClose, Option.some_bind,
    parseLit_append, Option.map_some']

/-- Serialize-then-parse is the identity on the statistics block. -/
theorem parseCurrentStatsDoc_serialize (s : CurrentStatistics) :
    parseCurrentStatsDoc (serializeCurrentStats s) = some s := by
  unfold parseCurrentStatsDoc serializeCurrentStats
  have h1 : (String.mk (reprCurrentStats s)).toList = reprCurrentStats s := rfl
  rw [h1, show reprCurrentStats s = reprCurrentStats s ++ [] from
    (List.append_nil _).symm, parseCurrentStats_repr]

/-- C9.  For every statistics block of a generated report document, writing
it through the cache (`cache_report`, which stores the serialized string) and
reading it back (`get_cached_report`, which parses the string) yields
statistics fields identical to the original: serialize followed by parse is
the identity on the statistics fields, on the cache write/read path. -/
theorem report_statistics_cache_roundtrip (store : List (String × String))
    (key : String) (s : CurrentStatistics) :
    getCachedReport (cacheReport store key s) key = some s := by
  unfold getCachedReport cacheReport redisSet redisGet
  rw [List.find?_cons_of_pos _ (by simp), Option.map_some', Option.some_bind]
  exact parseCurrentStatsDoc_serialize s

end WABot
